import Mathlib

/-!
Verification development for `fs/crypto/keyinfo.c` (fscrypt key management)
of the android_kernel_samsung_gta4lwifi repository.

The C code is shallowly embedded: byte buffers become `List Nat`, kernel
error returns become negative `Int` values (or `Except Int`), external
collaborators (keyring service, crypto API primitives, filesystem callbacks)
become explicit function parameters, and the global master-key hash table
becomes an explicit `List` threaded through the operations.
-/

namespace Fscrypt

/-! ### Constants

Sizes and error numbers used by `keyinfo.c`.  The struct/constant values come
from the UAPI layout the file compiles against: 8-byte key descriptor, 16-byte
derivation nonce, 64-byte maximum key. -/

def FS_KEY_DESCRIPTOR_SIZE : Nat := 8
def FS_MAX_KEY_SIZE : Nat := 64
def FS_KEY_DERIVATION_NONCE_SIZE : Nat := 16
def FS_ENCRYPTION_CONTEXT_FORMAT_V1 : Nat := 1
def SHA256_DIGEST_SIZE : Nat := 32
def AES_BLOCK_SIZE : Nat := 16
def FSCRYPT_MAX_IV_SIZE : Nat := 32

/-- Modelled from the spec: the recognized policy flag bits are the two
filename-padding bits plus DIRECT_KEY, so the valid mask is 0x07 and
DIRECT_KEY is bit 2 (value 4).  (`FS_POLICY_FLAGS_VALID` and
`FS_POLICY_FLAG_DIRECT_KEY` live in a UAPI header that is not part of the
packaged source.) -/
def FS_POLICY_FLAG_DIRECT_KEY : Nat := 4

def FS_POLICY_FLAGS_VALID : Nat := 7

/-- Complement of `FS_POLICY_FLAGS_VALID` within a `u8` flags byte. -/
def FS_POLICY_FLAGS_INVALID_MASK : Nat := 248

/-- Modelled from the spec: the per-file IV layout places the 16-byte
per-file nonce directly after a 64-bit block counter, so
`offsetofend(union fscrypt_iv, nonce) = 8 + 16 = 24`.  (The union lives in
`fscrypt_private.h`, which is not part of the packaged source; the spec says
the IV must be "large enough to carry a per-file nonce inside the IV".) -/
def offsetofend_fscrypt_iv_nonce : Nat := 8 + FS_KEY_DERIVATION_NONCE_SIZE

/- Error numbers (Linux asm-generic values); the C code returns them
negated. -/
def EPERM : Int := 1
def ENOMEM : Int := 12
def EINVAL : Int := 22
def ENOKEY : Int := 126

/-- `sizeof(struct fscrypt_key)`: a `u32 mode`, 64 raw bytes, a `u32 size`. -/
def sizeof_fscrypt_key : Nat := 72

/- Mode identifiers (UAPI `FS_ENCRYPTION_MODE_*` numbering used by the
designated initializers of `available_modes`). -/
def FS_ENCRYPTION_MODE_AES_256_XTS : Nat := 1
def FS_ENCRYPTION_MODE_AES_256_CTS : Nat := 4
def FS_ENCRYPTION_MODE_AES_128_CBC : Nat := 5
def FS_ENCRYPTION_MODE_AES_128_CTS : Nat := 6
def FS_ENCRYPTION_MODE_ADIANTUM : Nat := 9
def FS_ENCRYPTION_MODE_PRIVATE : Nat := 127

def FS_KEY_DESC_PREFIX : String := "fscrypt:"

/-! ### Mode registry (`struct fscrypt_mode`, `available_modes`) -/

/-- `struct fscrypt_mode` minus the mutable `logged_impl_name` diagnostics
flag (that flag only gates a one-time log line and plays no part in any
behavior modelled here). -/
structure fscrypt_mode where
  friendly_name : String
  cipher_str : String
  keysize : Nat
  ivsize : Nat
  needs_essiv : Bool
  inline_encryption : Bool
deriving Repr, DecidableEq

/-- A zero-initialized `struct fscrypt_mode`: C array entries of
`available_modes` that no designated initializer names are zero-filled. -/
def zero_mode : fscrypt_mode :=
  { friendly_name := ""
    cipher_str := ""
    keysize := 0
    ivsize := 0
    needs_essiv := false
    inline_encryption := false }

def mode_AES_256_XTS : fscrypt_mode :=
  { friendly_name := "AES-256-XTS"
    cipher_str := "xts(aes)"
    keysize := 64
    ivsize := 16
    needs_essiv := false
    inline_encryption := false }

def mode_AES_256_CTS : fscrypt_mode :=
  { friendly_name := "AES-256-CTS-CBC"
    cipher_str := "cts(cbc(aes))"
    keysize := 32
    ivsize := 16
    needs_essiv := false
    inline_encryption := false }

def mode_AES_128_CBC : fscrypt_mode :=
  { friendly_name := "AES-128-CBC"
    cipher_str := "cbc(aes)"
    keysize := 16
    ivsize := 16
    needs_essiv := true
    inline_encryption := false }

def mode_AES_128_CTS : fscrypt_mode :=
  { friendly_name := "AES-128-CTS-CBC"
    cipher_str := "cts(cbc(aes))"
    keysize := 16
    ivsize := 16
    needs_essiv := false
    inline_encryption := false }

def mode_Adiantum : fscrypt_mode :=
  { friendly_name := "Adiantum"
    cipher_str := "adiantum(xchacha12,aes)"
    keysize := 32
    ivsize := 32
    needs_essiv := false
    inline_encryption := false }

def mode_private_ice : fscrypt_mode :=
  { friendly_name := "ice"
    cipher_str := "xts(aes)"
    keysize := 64
    ivsize := 16
    needs_essiv := false
    inline_encryption := true }

/-- The `available_modes` array as a total lookup: listed indices map to the
initialized entries, every other index to a zero-filled entry (as in the C
array, whose length is one past the largest designated index). -/
def available_modes (i : Nat) : fscrypt_mode :=
  if i = FS_ENCRYPTION_MODE_AES_256_XTS then mode_AES_256_XTS
  else if i = FS_ENCRYPTION_MODE_AES_256_CTS then mode_AES_256_CTS
  else if i = FS_ENCRYPTION_MODE_AES_128_CBC then mode_AES_128_CBC
  else if i = FS_ENCRYPTION_MODE_AES_128_CTS then mode_AES_128_CTS
  else if i = FS_ENCRYPTION_MODE_ADIANTUM then mode_Adiantum
  else if i = FS_ENCRYPTION_MODE_PRIVATE then mode_private_ice
  else zero_mode

/-! ### `select_encryption_mode` -/

/-- The inode kinds `select_encryption_mode` distinguishes via
`S_ISREG` / `S_ISDIR` / `S_ISLNK`; `other` carries the remaining
`i_mode & S_IFMT` bits. -/
inductive InodeKind where
  | regular
  | directory
  | symlink
  | other (fileType : Nat)
deriving Repr, DecidableEq

/-- `select_encryption_mode`.  External collaborators become parameters:
`valid_enc_modes` is `fscrypt_valid_enc_modes` (a header helper outside the
packaged source) and `ice_capable` is `fscrypt_is_ice_capable(sb)`.  The
returned `Bool` records whether the `WARN_ONCE` programming-contract
assertion for a non-encryptable inode kind fired.  (The `IS_ERR(mode)` test
after indexing the array in the C source can never be true for a pointer
into a static array and is dead code.) -/
def select_encryption_mode (valid_enc_modes : Nat → Nat → Bool)
    (ice_capable : Bool) (ci_data_mode ci_filename_mode : Nat)
    (kind : InodeKind) : Except Int fscrypt_mode × Bool :=
  if ¬ valid_enc_modes ci_data_mode ci_filename_mode then
    (.error (-EINVAL), false)
  else
    match kind with
    | .regular =>
      let mode := available_modes ci_data_mode
      if mode.inline_encryption ∧ ¬ ice_capable then
        (.error (-EINVAL), false)
      else
        (.ok mode, false)
    | .directory => (.ok (available_modes ci_filename_mode), false)
    | .symlink => (.ok (available_modes ci_filename_mode), false)
    | .other _ => (.error (-EINVAL), true)

/-- C5: `select_encryption_mode` returns the contents mode for a regular
file (or an error when that mode needs inline encryption the volume lacks),
the filenames mode for a directory or symlink, `-EINVAL` for an unrecognized
mode combination, and fires the `WARN_ONCE` programming-contract assertion
(and only then) for any other inode kind. -/
theorem c5_select_encryption_mode (valid_enc_modes : Nat → Nat → Bool)
    (ice_capable : Bool) (dm fm : Nat) (kind : InodeKind) :
    (valid_enc_modes dm fm = true →
      (kind = .regular →
        (((available_modes dm).inline_encryption ∧ ice_capable = false) →
          select_encryption_mode valid_enc_modes ice_capable dm fm kind =
            (.error (-EINVAL), false)) ∧
        (¬ ((available_modes dm).inline_encryption ∧ ice_capable = false) →
          select_encryption_mode valid_enc_modes ice_capable dm fm kind =
            (.ok (available_modes dm), false))) ∧
      ((kind = .directory ∨ kind = .symlink) →
        select_encryption_mode valid_enc_modes ice_capable dm fm kind =
          (.ok (available_modes fm), false)) ∧
      (∀ t, kind = .other t →
        select_encryption_mode valid_enc_modes ice_capable dm fm kind =
          (.error (-EINVAL), true))) ∧
    (valid_enc_modes dm fm = false →
      select_encryption_mode valid_enc_modes ice_capable dm fm kind =
        (.error (-EINVAL), false)) := by
  constructor
  · intro hv
    refine ⟨?_, ?_, ?_⟩
    · rintro rfl
      constructor
      · rintro ⟨hinl, hice⟩
        simp [select_encryption_mode, hv, hinl, hice]
      · intro hn
        simp [select_encryption_mode, hv, hn]
    · rintro (rfl | rfl) <;> simp [select_encryption_mode, hv]
    · rintro t rfl
      simp [select_encryption_mode, hv]
  · intro hv
    cases kind <;> simp [select_encryption_mode, hv]

/-- Witness for C5 at a concrete input: the recognized (XTS, CTS) pair on a
regular file yields the XTS contents mode without the assertion firing. -/
theorem c5_select_encryption_mode_witness :
    ((fun dm fm => decide (dm = 1 ∧ fm = 4)) 1 4 = true) ∧
    select_encryption_mode (fun dm fm => decide (dm = 1 ∧ fm = 4)) true 1 4
      .regular = (.ok (available_modes 1), false) := by
  refine ⟨by decide, ?_⟩
  have h := c5_select_encryption_mode (fun dm fm => decide (dm = 1 ∧ fm = 4))
    true 1 4 .regular
  have h2 := ((h.1 (by decide)).1 rfl).2
  apply h2
  rintro ⟨hinl, hice⟩
  cases hice

/-! ### On-disk context (`struct fscrypt_context`) -/

/-- `struct fscrypt_context` (v1): format byte, two mode bytes, flags byte,
8-byte master key descriptor, 16-byte nonce.  The Samsung SDP `knox_flags`
extension field is not modelled (the SDP-classified delegation path is out
of scope here). -/
structure fscrypt_context where
  format : Nat
  contents_encryption_mode : Nat
  filenames_encryption_mode : Nat
  flags : Nat
  master_key_descriptor : List Nat
  nonce : List Nat
deriving Repr, DecidableEq

/-! ### Wrapping-key locator (`find_and_lock_process_key`) -/

/-- The validated payload of a "logon" key (`struct fscrypt_key`): a declared
size and the 64-byte raw buffer.  The leading `u32 mode` field of the C
struct is never read by this file and is omitted. -/
structure fscrypt_key where
  fk_size : Nat
  fk_raw : List Nat
deriving Repr, DecidableEq

/-- Outcome of `request_key` + `user_key_payload_locked` for one description:
the external key service either fails (`lk_err`, e.g. `-ENOKEY` when the key
is absent), returns a key revoked before the semaphore was taken
(`lk_revoked`), or yields a payload of `datalen` bytes. -/
inductive key_lookup_result where
  | lk_err (e : Int)
  | lk_revoked
  | lk_found (datalen : Nat) (payload : fscrypt_key)
deriving Repr, DecidableEq

/-- `find_and_lock_process_key`.  The keyring service is the parameter
`keyring`, indexed by the description pieces (prefix string, descriptor
bytes) that `kasprintf` concatenates; the `kasprintf` allocation itself is
assumed to succeed.  Payload validation mirrors the C source: wrong
`datalen`, declared size outside `[1, FS_MAX_KEY_SIZE]`, or declared size
below `min_keysize` all collapse to `-ENOKEY`. -/
def find_and_lock_process_key
    (keyring : String → List Nat → key_lookup_result)
    (pfx : String) (descriptor : List Nat) (min_keysize : Nat) :
    Except Int fscrypt_key :=
  match keyring pfx descriptor with
  | .lk_err e => .error e
  | .lk_revoked => .error (-ENOKEY)
  | .lk_found datalen payload =>
    if datalen ≠ sizeof_fscrypt_key then .error (-ENOKEY)
    else if payload.fk_size < 1 then .error (-ENOKEY)
    else if payload.fk_size > FS_MAX_KEY_SIZE then .error (-ENOKEY)
    else if payload.fk_size < min_keysize then .error (-ENOKEY)
    else .ok payload

/-- The two-prefix lookup at the top of `find_and_derive_key`: try
`FS_KEY_DESC_PREFIX`, and only when that returns exactly `-ENOKEY` and the
filesystem supplies a secondary prefix (`s_cop->key_prefix`), retry with
it. -/
def find_master_key_payload
    (keyring : String → List Nat → key_lookup_result)
    (keyPfx2 : Option String) (descriptor : List Nat) (min_keysize : Nat) :
    Except Int fscrypt_key :=
  match find_and_lock_process_key keyring FS_KEY_DESC_PREFIX descriptor
      min_keysize, keyPfx2 with
  | .error e, some p2 =>
    if e = -ENOKEY then
      find_and_lock_process_key keyring p2 descriptor min_keysize
    else .error e
  | r, _ => r

/-! ### Key derivation engine (`derive_key_aes`, `find_and_derive_key`) -/

/-- `derive_key_aes`: AES-128-ECB encryption of the first `derived_keysize`
bytes of the master key, keyed by the inode's 16-byte nonce.  The AES-ECB
primitive is the parameter `ecb` (key, then data); allocation failures of
the transform/request are not modelled. -/
def derive_key_aes (ecb : List Nat → List Nat → List Nat)
    (master_key : List Nat) (nonce : List Nat)
    (derived_keysize : Nat) : List Nat :=
  ecb nonce (master_key.take derived_keysize)

/-- `find_and_derive_key`: look the master key up (two-prefix retry), then
route by policy: DIRECT_KEY copies the master key bytes (after validating
IV size and equal contents/filenames modes), inline-encryption modes copy
the master key bytes, every other mode derives via AES-ECB. -/
def find_and_derive_key
    (keyring : String → List Nat → key_lookup_result)
    (keyPfx2 : Option String) (ecb : List Nat → List Nat → List Nat)
    (ctx : fscrypt_context) (mode : fscrypt_mode) :
    Except Int (List Nat) :=
  match find_master_key_payload keyring keyPfx2 ctx.master_key_descriptor
      mode.keysize with
  | .error e => .error e
  | .ok payload =>
    if ctx.flags &&& FS_POLICY_FLAG_DIRECT_KEY ≠ 0 then
      if mode.ivsize < offsetofend_fscrypt_iv_nonce then
        .error (-EINVAL)
      else if ctx.contents_encryption_mode ≠ ctx.filenames_encryption_mode then
        .error (-EINVAL)
      else
        .ok (payload.fk_raw.take mode.keysize)
    else if mode.inline_encryption then
      .ok (payload.fk_raw.take mode.keysize)
    else
      .ok (derive_key_aes ecb payload.fk_raw ctx.nonce mode.keysize)

/-- C3: for a policy without DIRECT_KEY and a mode without inline
encryption, the per-file key produced by `find_and_derive_key` is exactly
the AES-ECB encryption, keyed by the inode's nonce, of the first
`mode.keysize` bytes of the master key; it has length `mode.keysize`
(given that the block cipher preserves data length and the master key is
long enough, which the locator's `min_keysize` check guarantees); and the
derivation is a deterministic function of its inputs. -/
theorem c3_find_and_derive_key_default
    (keyring : String → List Nat → key_lookup_result)
    (keyPfx2 : Option String) (ecb : List Nat → List Nat → List Nat)
    (ctx : fscrypt_context) (mode : fscrypt_mode) (payload : fscrypt_key)
    (hflag : ctx.flags &&& FS_POLICY_FLAG_DIRECT_KEY = 0)
    (hinl : mode.inline_encryption = false)
    (hfound : find_master_key_payload keyring keyPfx2
        ctx.master_key_descriptor mode.keysize = .ok payload)
    (hecb_len : ∀ k d, (ecb k d).length = d.length)
    (hlen : mode.keysize ≤ payload.fk_raw.length) :
    find_and_derive_key keyring keyPfx2 ecb ctx mode =
      .ok (derive_key_aes ecb payload.fk_raw ctx.nonce mode.keysize) ∧
    derive_key_aes ecb payload.fk_raw ctx.nonce mode.keysize =
      ecb ctx.nonce (payload.fk_raw.take mode.keysize) ∧
    (derive_key_aes ecb payload.fk_raw ctx.nonce mode.keysize).length =
      mode.keysize ∧
    derive_key_aes ecb payload.fk_raw ctx.nonce mode.keysize =
      derive_key_aes ecb payload.fk_raw ctx.nonce mode.keysize := by
  refine ⟨?_, rfl, ?_, rfl⟩
  · simp [find_and_derive_key, hfound, hflag, hinl]
  · simp [derive_key_aes, hecb_len, List.length_take, hlen,
      Nat.min_eq_left hlen]

/-- Witness for C3: a concrete keyring holding a 72-byte well-formed
payload, the identity block cipher, and the AES-256-XTS mode. -/
theorem c3_find_and_derive_key_default_witness :
    find_and_derive_key
      (fun _ _ => .lk_found 72
        { fk_size := 64, fk_raw := List.replicate 64 9 })
      none (fun _ d => d)
      { format := 1, contents_encryption_mode := 1,
        filenames_encryption_mode := 4, flags := 0,
        master_key_descriptor := List.replicate 8 0,
        nonce := List.replicate 16 0 }
      mode_AES_256_XTS =
      .ok (derive_key_aes (fun _ d => d) (List.replicate 64 9)
        (List.replicate 16 0) 64) := by
  have h := c3_find_and_derive_key_default
    (fun _ _ => .lk_found 72 { fk_size := 64, fk_raw := List.replicate 64 9 })
    none (fun _ d => d)
    { format := 1, contents_encryption_mode := 1,
      filenames_encryption_mode := 4, flags := 0,
      master_key_descriptor := List.replicate 8 0,
      nonce := List.replicate 16 0 }
    mode_AES_256_XTS
    { fk_size := 64, fk_raw := List.replicate 64 9 }
    (by decide) (by decide) rfl (fun _ d => rfl) (by decide)
  exact h.1

/-- C4: with the DIRECT_KEY policy flag set a successful lookup skips
derivation entirely — the master key's first `mode.keysize` bytes become
the per-file key — but only when the mode's IV is large enough to hold the
per-file nonce and the contents and filenames mode ids agree; an
undersized IV or differing mode ids yields `-EINVAL` and no key. -/
theorem c4_find_and_derive_key_direct_key
    (keyring : String → List Nat → key_lookup_result)
    (keyPfx2 : Option String) (ecb : List Nat → List Nat → List Nat)
    (ctx : fscrypt_context) (mode : fscrypt_mode) (payload : fscrypt_key)
    (hflag : ctx.flags &&& FS_POLICY_FLAG_DIRECT_KEY ≠ 0)
    (hfound : find_master_key_payload keyring keyPfx2
        ctx.master_key_descriptor mode.keysize = .ok payload) :
    (mode.ivsize < offsetofend_fscrypt_iv_nonce →
      find_and_derive_key keyring keyPfx2 ecb ctx mode =
        .error (-EINVAL)) ∧
    (offsetofend_fscrypt_iv_nonce ≤ mode.ivsize →
      ctx.contents_encryption_mode ≠ ctx.filenames_encryption_mode →
      find_and_derive_key keyring keyPfx2 ecb ctx mode =
        .error (-EINVAL)) ∧
    (offsetofend_fscrypt_iv_nonce ≤ mode.ivsize →
      ctx.contents_encryption_mode = ctx.filenames_encryption_mode →
      find_and_derive_key keyring keyPfx2 ecb ctx mode =
        .ok (payload.fk_raw.take mode.keysize)) := by
  refine ⟨?_, ?_, ?_⟩
  · intro hiv
    simp [find_and_derive_key, hfound, hflag, hiv]
  · intro hiv hne
    simp [find_and_derive_key, hfound, hflag, Nat.not_lt.mpr hiv, hne]
  · intro hiv heq
    simp [find_and_derive_key, hfound, hflag, Nat.not_lt.mpr hiv, heq]

/-- Witness for C4: Adiantum (IV size 32 ≥ 24) with equal mode ids under a
DIRECT_KEY policy passes the master key bytes through. -/
theorem c4_find_and_derive_key_direct_key_witness :
    find_and_derive_key
      (fun _ _ => .lk_found 72
        { fk_size := 32, fk_raw := List.replicate 64 5 })
      none (fun _ d => d)
      { format := 1, contents_encryption_mode := 9,
        filenames_encryption_mode := 9, flags := 4,
        master_key_descriptor := List.replicate 8 0,
        nonce := List.replicate 16 0 }
      mode_Adiantum =
      .ok ((List.replicate 64 5).take 32) := by
  have h := c4_find_and_derive_key_direct_key
    (fun _ _ => .lk_found 72 { fk_size := 32, fk_raw := List.replicate 64 5 })
    none (fun _ d => d)
    { format := 1, contents_encryption_mode := 9,
      filenames_encryption_mode := 9, flags := 4,
      master_key_descriptor := List.replicate 8 0,
      nonce := List.replicate 16 0 }
    mode_Adiantum
    { fk_size := 32, fk_raw := List.replicate 64 5 }
    (by decide) rfl
  exact h.2.2 (by decide) rfl

/-! ### Master-key cache (`struct fscrypt_master_key` and its table)

The global `fscrypt_master_keys` hash table becomes an explicit list
threaded through the operations.  The C table is keyed by a `hash_key`
copied from the first `sizeof(unsigned long) = 8` bytes of the descriptor —
which is the whole 8-byte descriptor — and every candidate in the scanned
bucket is then re-checked with `memcmp` on the full descriptor, so scanning
the whole list instead of one bucket is observationally identical: entries
with a different descriptor are skipped either way.  `crypto_memneq` is a
constant-time comparison whose functional content is byte equality over
`mode->keysize` bytes. -/

/-- `struct fscrypt_master_key`; the cipher handle `mk_ctfm` is an abstract
identifier.  `mk_raw` models the fixed 64-byte `u8 mk_raw[FS_MAX_KEY_SIZE]`
buffer. -/
structure fscrypt_master_key where
  mk_refcount : Nat
  mk_mode : fscrypt_mode
  mk_ctfm : Nat
  mk_descriptor : List Nat
  mk_raw : List Nat
deriving Repr, DecidableEq

/-- The three-way match inside the `hash_for_each_possible` loop of
`find_or_insert_master_key`: full-descriptor `memcmp`, mode pointer
equality (structural equality here: the six initialized `available_modes`
entries are pairwise distinct), and `crypto_memneq` over
`mode->keysize` raw key bytes. -/
def mk_matches (desc : List Nat) (mode : fscrypt_mode) (raw_key : List Nat)
    (mk : fscrypt_master_key) : Bool :=
  decide (desc = mk.mk_descriptor) && decide (mode = mk.mk_mode) &&
    decide (raw_key.take mode.keysize = mk.mk_raw.take mode.keysize)

/-- Contents of a freshly built entry's `mk_raw` buffer: `kzalloc` zero
fill overwritten by `memcpy(mk->mk_raw, raw_key, mode->keysize)`. -/
def mk_raw_store (raw_key : List Nat) (keysize : Nat) : List Nat :=
  raw_key.take keysize ++ List.replicate (FS_MAX_KEY_SIZE - keysize) 0

/-- `find_or_insert_master_key`: scan for a (descriptor, mode, raw key)
match; on a hit bump the existing entry's refcount, drop (free) any
candidate, and return the existing entry; on a miss link the candidate (if
any) into the table and return it.  Result: (returned entry, new table,
whether a supplied candidate was freed). -/
def find_or_insert_master_key (to_insert : Option fscrypt_master_key)
    (raw_key : List Nat) (mode : fscrypt_mode) (desc : List Nat) :
    List fscrypt_master_key →
      Option fscrypt_master_key × List fscrypt_master_key × Bool
  | [] =>
    match to_insert with
    | some m => (some m, [m], false)
    | none => (none, [], false)
  | mk :: rest =>
    if mk_matches desc mode raw_key mk then
      (some { mk with mk_refcount := mk.mk_refcount + 1 },
        { mk with mk_refcount := mk.mk_refcount + 1 } :: rest,
        to_insert.isSome)
    else
      let r := find_or_insert_master_key to_insert raw_key mode desc rest
      (r.1, mk :: r.2.1, r.2.2)

/-- `fscrypt_get_master_key`: first probe without a candidate; on a miss
construct a fresh refcount-1 entry around a newly allocated cipher handle
(`ctfm_new`, the outcome of `allocate_skcipher_for_mode`) and re-run the
find-or-insert.  Allocation failure of the entry itself (`kzalloc`) is not
modelled; cipher allocation failure is the `ctfm_new` error case. -/
def fscrypt_get_master_key (desc : List Nat) (mode : fscrypt_mode)
    (raw_key : List Nat) (ctfm_new : Except Int Nat)
    (table : List fscrypt_master_key) :
    Except Int fscrypt_master_key × List fscrypt_master_key :=
  match find_or_insert_master_key none raw_key mode desc table with
  | (some mk, table2, _) => (.ok mk, table2)
  | (none, _, _) =>
    match ctfm_new with
    | .error e => (.error e, table)
    | .ok h =>
      let mk : fscrypt_master_key :=
        { mk_refcount := 1
          mk_mode := mode
          mk_ctfm := h
          mk_descriptor := desc
          mk_raw := mk_raw_store raw_key mode.keysize }
      match find_or_insert_master_key (some mk) raw_key mode desc table with
      | (some r, table2, _) => (.ok r, table2)
      | (none, table2, _) => (.ok mk, table2)

/-! ### Master-key release (`free_master_key`, `put_master_key`) -/

/-- What `free_master_key` leaves behind: the cipher handle is destroyed
(`crypto_free_skcipher`) and `kzfree` zeroes the entry's memory — in
particular every raw key byte. -/
structure freed_master_key where
  fmk_ctfm_destroyed : Nat
  fmk_bytes : List Nat
deriving Repr, DecidableEq

def free_master_key (mk : fscrypt_master_key) : freed_master_key :=
  { fmk_ctfm_destroyed := mk.mk_ctfm
    fmk_bytes := mk.mk_raw.map (fun _ => 0) }

/-- Ordered events of one `put_master_key` call, mirroring the source
lines: the atomic decrement (`refcount_dec_and_lock`), lock acquisition
when the count hits zero, `hash_del`, `spin_unlock`, then
`crypto_free_skcipher` and the zeroizing `kzfree`. -/
inductive mk_event where
  | ev_dec_ref
  | ev_lock
  | ev_unlink
  | ev_unlock
  | ev_free_ctfm
  | ev_zeroize_free
deriving Repr, DecidableEq

/-- Remove the first occurrence of `mk` (the `hash_del` step). -/
def erase_entry (mk : fscrypt_master_key) :
    List fscrypt_master_key → List fscrypt_master_key
  | [] => []
  | x :: rest => if x = mk then rest else x :: erase_entry mk rest

/-- Decrement the refcount of the first occurrence of `mk` in place. -/
def dec_entry (mk : fscrypt_master_key) :
    List fscrypt_master_key → List fscrypt_master_key
  | [] => []
  | x :: rest =>
    if x = mk then { x with mk_refcount := x.mk_refcount - 1 } :: rest
    else x :: dec_entry mk rest

/-- `put_master_key`: `refcount_dec_and_lock` decrements; only when the
count reaches zero does it take the table lock, whereupon the entry is
unlinked, the lock dropped, and the entry destroyed and zeroed. -/
def put_master_key (mk : fscrypt_master_key)
    (table : List fscrypt_master_key) :
    List fscrypt_master_key × Option freed_master_key × List mk_event :=
  if mk.mk_refcount = 1 then
    (erase_entry mk table, some (free_master_key mk),
      [.ev_dec_ref, .ev_lock, .ev_unlink, .ev_unlock, .ev_free_ctfm,
        .ev_zeroize_free])
  else
    (dec_entry mk table, none, [.ev_dec_ref])

/-! Helper lemmas about the cache operations. -/

theorem find_or_insert_hit (raw desc : List Nat) (mode : fscrypt_mode)
    (to_insert : Option fscrypt_master_key)
    (table : List fscrypt_master_key)
    (hex : ∃ mk ∈ table, mk_matches desc mode raw mk = true) :
    ∃ mk ∈ table, mk_matches desc mode raw mk = true ∧
      (find_or_insert_master_key to_insert raw mode desc table).1 =
        some { mk with mk_refcount := mk.mk_refcount + 1 } ∧
      (find_or_insert_master_key to_insert raw mode desc table).2.2 =
        to_insert.isSome ∧
      (find_or_insert_master_key to_insert raw mode desc table).2.1.length =
        table.length := by
  induction table with
  | nil => simp at hex
  | cons head rest ih =>
    by_cases hm : mk_matches desc mode raw head = true
    · refine ⟨head, List.mem_cons_self _ _, hm, ?_, ?_, ?_⟩ <;>
        simp [find_or_insert_master_key, hm]
    · have hex2 : ∃ mk ∈ rest, mk_matches desc mode raw mk = true := by
        rcases hex with ⟨mk, hmk, hmatch⟩
        rcases List.mem_cons.mp hmk with h | hmem
        · exact absurd (h ▸ hmatch) hm
        · exact ⟨mk, hmem, hmatch⟩
      rcases ih hex2 with ⟨mk, hmem, hmatch, h1, h2, h3⟩
      refine ⟨mk, List.mem_cons_of_mem _ hmem, hmatch, ?_, ?_, ?_⟩ <;>
        simp [find_or_insert_master_key, hm, h1, h2, h3]

theorem find_or_insert_miss (raw desc : List Nat) (mode : fscrypt_mode)
    (cand : fscrypt_master_key) (table : List fscrypt_master_key)
    (hno : ∀ mk ∈ table, mk_matches desc mode raw mk = false) :
    find_or_insert_master_key (some cand) raw mode desc table =
      (some cand, table ++ [cand], false) := by
  induction table with
  | nil => simp [find_or_insert_master_key]
  | cons head rest ih =>
    have hm : mk_matches desc mode raw head = false :=
      hno head (List.mem_cons_self _ _)
    have ih2 := ih (fun mk hmk => hno mk (List.mem_cons_of_mem _ hmk))
    simp [find_or_insert_master_key, hm, ih2]

theorem take_mk_raw_store (raw_key : List Nat) (ks : Nat)
    (h : raw_key.length = ks) :
    (mk_raw_store raw_key ks).take ks = raw_key := by
  subst h
  simp [mk_raw_store]

/-- C1: the master-key cache deduplicates by exact (descriptor, mode, raw
key) triple.  (a) If some table entry matches all three, the existing entry
is returned with its refcount incremented, a supplied candidate is freed,
and the table does not grow.  (b) If no entry matches all three, the
candidate is inserted and returned and nothing is freed.  (c) Consequently
two `fscrypt_get_master_key` calls (fresh cipher handles `hA ≠ hB`) share a
cipher handle iff their triples are identical. -/
theorem c1_master_key_cache_dedup
    (desc raw : List Nat) (mode : fscrypt_mode)
    (table : List fscrypt_master_key) (cand : fscrypt_master_key)
    (dA rA dB rB : List Nat) (mA mB : fscrypt_mode) (hA hB : Nat)
    (hlA : rA.length = mA.keysize) (hlB : rB.length = mB.keysize)
    (hfresh : hA ≠ hB) :
    ((∃ mk ∈ table, mk_matches desc mode raw mk = true) →
      ∃ mk ∈ table, mk_matches desc mode raw mk = true ∧
        (find_or_insert_master_key (some cand) raw mode desc table).1 =
          some { mk with mk_refcount := mk.mk_refcount + 1 } ∧
        (find_or_insert_master_key (some cand) raw mode desc table).2.2 =
          true ∧
        (find_or_insert_master_key (some cand) raw mode desc
            table).2.1.length = table.length) ∧
    ((∀ mk ∈ table, mk_matches desc mode raw mk = false) →
      find_or_insert_master_key (some cand) raw mode desc table =
        (some cand, table ++ [cand], false)) ∧
    (∃ mkA mkB,
      (fscrypt_get_master_key dA mA rA (.ok hA) []).1 = .ok mkA ∧
      (fscrypt_get_master_key dB mB rB (.ok hB)
          (fscrypt_get_master_key dA mA rA (.ok hA) []).2).1 = .ok mkB ∧
      (mkB.mk_ctfm = mkA.mk_ctfm ↔ (dB = dA ∧ mB = mA ∧ rB = rA))) := by
  refine ⟨?_, ?_, ?_⟩
  · intro hex
    have h := find_or_insert_hit raw desc mode (some cand) table hex
    simpa using h
  · intro hno
    exact find_or_insert_miss raw desc mode cand table hno
  · -- the first call inserts a fresh entry mkA0 into the empty table
    set mkA0 : fscrypt_master_key :=
      { mk_refcount := 1
        mk_mode := mA
        mk_ctfm := hA
        mk_descriptor := dA
        mk_raw := mk_raw_store rA mA.keysize } with hmkA0
    have hs1 : fscrypt_get_master_key dA mA rA (.ok hA) [] =
        (.ok mkA0, [mkA0]) := by
      simp [fscrypt_get_master_key, find_or_insert_master_key, hmkA0]
    by_cases hm : mk_matches dB mB rB mkA0 = true
    · -- hit: the second call returns the shared entry (handle hA)
      have htriple : dB = dA ∧ mB = mA ∧ rB = rA := by
        have hm2 := hm
        simp only [mk_matches, Bool.and_eq_true, decide_eq_true_eq] at hm2
        obtain ⟨⟨hd, hmo⟩, hr⟩ := hm2
        refine ⟨by simpa [hmkA0] using hd, by simpa [hmkA0] using hmo, ?_⟩
        have hmo2 : mB = mA := by simpa [hmkA0] using hmo
        have hr2 : rB.take mB.keysize =
            (mk_raw_store rA mA.keysize).take mB.keysize := by
          simpa [hmkA0] using hr
        rw [hmo2] at hr2 hlB
        rw [take_mk_raw_store rA mA.keysize hlA] at hr2
        calc rB = rB.take mA.keysize := by rw [← hlB, List.take_length]
          _ = rA := hr2
      have hs2 : (fscrypt_get_master_key dB mB rB (.ok hB) [mkA0]).1 =
          .ok { mkA0 with mk_refcount := mkA0.mk_refcount + 1 } := by
        simp [fscrypt_get_master_key, find_or_insert_master_key, hm]
      refine ⟨mkA0, { mkA0 with mk_refcount := mkA0.mk_refcount + 1 },
        by rw [hs1], by rw [hs1]; exact hs2, ?_⟩
      simp [htriple.1, htriple.2.1, htriple.2.2]
    · -- miss: the second call allocates a fresh entry around handle hB
      set mkB0 : fscrypt_master_key :=
        { mk_refcount := 1
          mk_mode := mB
          mk_ctfm := hB
          mk_descriptor := dB
          mk_raw := mk_raw_store rB mB.keysize } with hmkB0
      have hs2 : (fscrypt_get_master_key dB mB rB (.ok hB) [mkA0]).1 =
          .ok mkB0 := by
        simp [fscrypt_get_master_key, find_or_insert_master_key, hm, hmkB0]
      refine ⟨mkA0, mkB0, by rw [hs1], by rw [hs1]; exact hs2, ?_⟩
      constructor
      · intro hctfm
        have hba : hB = hA := by simpa [hmkA0, hmkB0] using hctfm
        exact absurd hba.symm hfresh
      · rintro ⟨hd, hmo, hr⟩
        exfalso
        apply hm
        subst hd hmo hr
        have ht1 : (mk_raw_store rB mB.keysize).take mB.keysize = rB :=
          take_mk_raw_store rB mB.keysize hlB
        have ht2 : rB.take mB.keysize = rB := by
          rw [← hlB, List.take_length]
        simp [mk_matches, hmkA0, ht1, ht2]

/-- Witness for C1 at concrete inputs: empty table and two distinct
triples/handles. -/
theorem c1_master_key_cache_dedup_witness :
    ((List.replicate 16 3).length = mode_AES_128_CBC.keysize ∧
      (List.replicate 16 4).length = mode_AES_128_CBC.keysize ∧
      (1 : Nat) ≠ 2) ∧
    (∃ mkA mkB,
      (fscrypt_get_master_key (List.replicate 8 7) mode_AES_128_CBC
        (List.replicate 16 3) (.ok 1) []).1 = .ok mkA ∧
      (fscrypt_get_master_key (List.replicate 8 7) mode_AES_128_CBC
          (List.replicate 16 4) (.ok 2)
          (fscrypt_get_master_key (List.replicate 8 7) mode_AES_128_CBC
            (List.replicate 16 3) (.ok 1) []).2).1 = .ok mkB ∧
      (mkB.mk_ctfm = mkA.mk_ctfm ↔
        (List.replicate 8 7 = List.replicate 8 7 ∧
          mode_AES_128_CBC = mode_AES_128_CBC ∧
          (List.replicate 16 4 : List Nat) = List.replicate 16 3))) := by
  refine ⟨⟨by decide, by decide, by decide⟩, ?_⟩
  exact (c1_master_key_cache_dedup [] [] zero_mode []
    ⟨1, zero_mode, 0, [], []⟩
    (List.replicate 8 7) (List.replicate 16 3)
    (List.replicate 8 7) (List.replicate 16 4)
    mode_AES_128_CBC mode_AES_128_CBC 1 2
    (by decide) (by decide) (by decide)).2.2

/-- C6: `put_master_key` on a table member: when the refcount is 1 the
entry is unlinked (before the lock is dropped) and then its cipher handle
destroyed and its memory — raw key bytes included — zeroed; when the
resulting count stays nonzero the entry merely loses one reference: the
table keeps its size, every other entry survives unchanged, the entry
survives with refcount decremented, and nothing is freed. -/
theorem map_zero_eq_replicate (l : List Nat) :
    l.map (fun _ => 0) = List.replicate l.length 0 := by
  induction l with
  | nil => rfl
  | cons a rest ih => simp [ih, List.replicate_succ]

theorem not_mem_erase_entry (mk : fscrypt_master_key)
    (table : List fscrypt_master_key) (hnodup : table.Nodup) :
    mk ∉ erase_entry mk table := by
  induction table with
  | nil => simp [erase_entry]
  | cons y rest ih =>
    rcases List.nodup_cons.mp hnodup with ⟨hy, hrest⟩
    by_cases he : y = mk
    · subst he
      simpa [erase_entry] using hy
    · simp only [erase_entry, if_neg he, List.mem_cons, not_or]
      exact ⟨fun hc => he hc.symm, ih hrest⟩

theorem mem_erase_entry (mk x : fscrypt_master_key) (hne : x ≠ mk)
    (table : List fscrypt_master_key) (hx : x ∈ table) :
    x ∈ erase_entry mk table := by
  induction table with
  | nil => simp at hx
  | cons y rest ih =>
    by_cases he : y = mk
    · subst he
      rcases List.mem_cons.mp hx with h | hx2
      · exact absurd h hne
      · simpa [erase_entry] using hx2
    · rcases List.mem_cons.mp hx with h | hx2
      · subst h
        simp [erase_entry, he]
      · simp only [erase_entry, if_neg he, List.mem_cons]
        exact Or.inr (ih hx2)

theorem length_dec_entry (mk : fscrypt_master_key)
    (table : List fscrypt_master_key) :
    (dec_entry mk table).length = table.length := by
  induction table with
  | nil => rfl
  | cons y rest ih =>
    by_cases he : y = mk <;> simp [dec_entry, he, ih]

theorem mem_dec_entry_self (mk : fscrypt_master_key)
    (table : List fscrypt_master_key) (hmem : mk ∈ table) :
    { mk with mk_refcount := mk.mk_refcount - 1 } ∈ dec_entry mk table := by
  induction table with
  | nil => simp at hmem
  | cons y rest ih =>
    by_cases he : y = mk
    · subst he
      simp [dec_entry]
    · rcases List.mem_cons.mp hmem with h | hx2
      · exact absurd h.symm he
      · simp only [dec_entry, if_neg he, List.mem_cons]
        exact Or.inr (ih hx2)

theorem mem_dec_entry_other (mk x : fscrypt_master_key) (hne : x ≠ mk)
    (table : List fscrypt_master_key) (hx : x ∈ table) :
    x ∈ dec_entry mk table := by
  induction table with
  | nil => simp at hx
  | cons y rest ih =>
    by_cases he : y = mk
    · subst he
      rcases List.mem_cons.mp hx with h | hx2
      · exact absurd h hne
      · simp [dec_entry, hx2]
    · rcases List.mem_cons.mp hx with h | hx2
      · subst h
        simp [dec_entry, he]
      · simp only [dec_entry, if_neg he, List.mem_cons]
        exact Or.inr (ih hx2)

/-- C6: `put_master_key` on a table member: when the refcount is 1 the
entry is unlinked (before the lock is dropped) and then its cipher handle
destroyed and its memory — raw key bytes included — zeroed; when the
resulting count stays nonzero the entry merely loses one reference: the
table keeps its size, every other entry survives unchanged, the entry
survives with refcount decremented, and nothing is freed. -/
theorem c6_put_master_key (mk : fscrypt_master_key)
    (table : List fscrypt_master_key) (hmem : mk ∈ table)
    (hnodup : table.Nodup) :
    (mk.mk_refcount = 1 →
      (put_master_key mk table).1 = erase_entry mk table ∧
      mk ∉ (put_master_key mk table).1 ∧
      (∀ x ∈ table, x ≠ mk → x ∈ (put_master_key mk table).1) ∧
      (put_master_key mk table).2.1 = some (free_master_key mk) ∧
      (free_master_key mk).fmk_bytes =
        List.replicate mk.mk_raw.length 0 ∧
      (free_master_key mk).fmk_ctfm_destroyed = mk.mk_ctfm ∧
      ((put_master_key mk table).2.2.indexOf .ev_unlink <
        (put_master_key mk table).2.2.indexOf .ev_unlock ∧
       (put_master_key mk table).2.2.indexOf .ev_unlock <
        (put_master_key mk table).2.2.indexOf .ev_free_ctfm ∧
       (put_master_key mk table).2.2.indexOf .ev_free_ctfm <
        (put_master_key mk table).2.2.indexOf .ev_zeroize_free)) ∧
    (2 ≤ mk.mk_refcount →
      (put_master_key mk table).2.1 = none ∧
      (put_master_key mk table).1.length = table.length ∧
      { mk with mk_refcount := mk.mk_refcount - 1 } ∈
        (put_master_key mk table).1 ∧
      (∀ x ∈ table, x ≠ mk → x ∈ (put_master_key mk table).1)) := by
  constructor
  · intro h1
    have htab : (put_master_key mk table).1 = erase_entry mk table := by
      simp [put_master_key, h1]
    have hfreed : (put_master_key mk table).2.1 =
        some (free_master_key mk) := by
      simp [put_master_key, h1]
    have htr : (put_master_key mk table).2.2 =
        [.ev_dec_ref, .ev_lock, .ev_unlink, .ev_unlock, .ev_free_ctfm,
          .ev_zeroize_free] := by
      simp [put_master_key, h1]
    rw [htab, hfreed, htr]
    exact ⟨rfl, not_mem_erase_entry mk table hnodup,
      fun x hx hne => mem_erase_entry mk x hne table hx, rfl,
      map_zero_eq_replicate mk.mk_raw, rfl, by decide, by decide, by decide⟩
  · intro h2
    have h1 : ¬ mk.mk_refcount = 1 := by omega
    have htab : (put_master_key mk table).1 = dec_entry mk table := by
      simp [put_master_key, h1]
    have hfreed : (put_master_key mk table).2.1 = none := by
      simp [put_master_key, h1]
    rw [htab, hfreed]
    exact ⟨rfl, length_dec_entry mk table, mem_dec_entry_self mk table hmem,
      fun x hx hne => mem_dec_entry_other mk x hne table hx⟩

/-- Witness for C6: a two-entry table releasing a refcount-1 entry. -/
theorem c6_put_master_key_witness :
    ((⟨1, mode_AES_128_CBC, 5, List.replicate 8 7, List.replicate 64 9⟩ :
        fscrypt_master_key) ∈
      [(⟨1, mode_AES_128_CBC, 5, List.replicate 8 7, List.replicate 64 9⟩ :
          fscrypt_master_key),
        ⟨2, mode_Adiantum, 6, List.replicate 8 8, List.replicate 64 1⟩] ∧
      ((1 : Nat) = 1)) ∧
    (put_master_key
        ⟨1, mode_AES_128_CBC, 5, List.replicate 8 7, List.replicate 64 9⟩
        [⟨1, mode_AES_128_CBC, 5, List.replicate 8 7, List.replicate 64 9⟩,
          ⟨2, mode_Adiantum, 6, List.replicate 8 8,
            List.replicate 64 1⟩]).2.1 =
      some (free_master_key
        ⟨1, mode_AES_128_CBC, 5, List.replicate 8 7,
          List.replicate 64 9⟩) := by
  refine ⟨⟨by decide, rfl⟩, ?_⟩
  have h := c6_put_master_key
    ⟨1, mode_AES_128_CBC, 5, List.replicate 8 7, List.replicate 64 9⟩
    [⟨1, mode_AES_128_CBC, 5, List.replicate 8 7, List.replicate 64 9⟩,
      ⟨2, mode_Adiantum, 6, List.replicate 8 8, List.replicate 64 1⟩]
    (by decide) (by decide)
  exact (h.1 rfl).2.2.2.1

/-! ### ESSIV IV-generator setup (`derive_essiv_salt`, `init_essiv_generator`) -/

/-- `derive_essiv_salt`: SHA-256 digest of the first `keysize` bytes of the
key.  The hash primitive is the parameter `sha`; the lazily-published
global `essiv_hash_tfm` only caches the transform object and does not change
the digest computed, and its allocation failure is folded into the caller's
`digest_res` parameter. -/
def derive_essiv_salt (sha : List Nat → List Nat) (key : List Nat)
    (keysize : Nat) : List Nat :=
  sha (key.take keysize)

/-- Observable outcome of `init_essiv_generator`: the error code, the value
of `ci->ci_essiv_tfm` on return, the key installed into the ESSIV cipher
(if any), and the contents of the stack `salt` buffer at return (`none` for
the early return before the buffer is ever written — the
`crypto_alloc_cipher` failure path). -/
structure essiv_result where
  essiv_err : Int
  essiv_tfm : Option Nat
  essiv_key : Option (List Nat)
  salt_final : Option (List Nat)
deriving Repr, DecidableEq

/-- `init_essiv_generator`: allocate the "aes" cipher (outcome
`alloc_cipher`), publish it into `ci->ci_essiv_tfm`, digest the raw key
into `salt` (outcome `digest_res`, with value `derive_essiv_salt` on
success), key the cipher with the 32-byte salt (outcome `setkey_res`), and
`memzero_explicit` the salt buffer at the common exit. -/
def init_essiv_generator (sha : List Nat → List Nat)
    (alloc_cipher : Except Int Nat) (digest_res setkey_res : Int)
    (raw_key : List Nat) (keysize : Nat) : essiv_result :=
  match alloc_cipher with
  | .error e =>
    { essiv_err := e, essiv_tfm := none, essiv_key := none,
      salt_final := none }
  | .ok h =>
    if digest_res ≠ 0 then
      { essiv_err := digest_res, essiv_tfm := some h, essiv_key := none,
        salt_final := some (List.replicate SHA256_DIGEST_SIZE 0) }
    else if setkey_res ≠ 0 then
      { essiv_err := setkey_res, essiv_tfm := some h, essiv_key := none,
        salt_final := some (List.replicate SHA256_DIGEST_SIZE 0) }
    else
      { essiv_err := 0, essiv_tfm := some h,
        essiv_key := some (derive_essiv_salt sha raw_key keysize),
        salt_final := some (List.replicate SHA256_DIGEST_SIZE 0) }

/-- C7: once the ESSIV cipher allocation has succeeded (so the digest may
be computed), every path of `init_essiv_generator` — success, digest
failure, setkey failure — leaves the salt buffer zeroed at return; and on
success the ESSIV cipher is keyed with exactly the SHA-256 digest of the
per-file raw key, a 32-byte key (AES-256 for IV generation). -/
theorem c7_init_essiv_generator (sha : List Nat → List Nat) (h : Nat)
    (digest_res setkey_res : Int) (raw_key : List Nat) (keysize : Nat)
    (hsha : ∀ x, (sha x).length = SHA256_DIGEST_SIZE) :
    ((init_essiv_generator sha (.ok h) digest_res setkey_res raw_key
        keysize).salt_final =
      some (List.replicate SHA256_DIGEST_SIZE 0)) ∧
    (digest_res = 0 → setkey_res = 0 →
      (init_essiv_generator sha (.ok h) digest_res setkey_res raw_key
          keysize).essiv_err = 0 ∧
      (init_essiv_generator sha (.ok h) digest_res setkey_res raw_key
          keysize).essiv_key =
        some (derive_essiv_salt sha raw_key keysize) ∧
      (derive_essiv_salt sha raw_key keysize).length =
        SHA256_DIGEST_SIZE) := by
  constructor
  · by_cases hd : digest_res = 0
    · by_cases hs : setkey_res = 0 <;>
        simp [init_essiv_generator, hd, hs]
    · simp [init_essiv_generator, hd]
  · intro hd hs
    refine ⟨?_, ?_, hsha _⟩ <;> simp [init_essiv_generator, hd, hs]

/-- Witness for C7: a concrete constant-output hash on a 16-byte key. -/
theorem c7_init_essiv_generator_witness :
    ((∀ x : List Nat,
        ((fun _ => List.replicate 32 1) x : List Nat).length =
          SHA256_DIGEST_SIZE) ∧ (0 : Int) = 0) ∧
    (init_essiv_generator (fun _ => List.replicate 32 1) (.ok 3) 0 0
        (List.replicate 16 2) 16).essiv_key =
      some (derive_essiv_salt (fun _ => List.replicate 32 1)
        (List.replicate 16 2) 16) := by
  refine ⟨⟨fun x => by simp [SHA256_DIGEST_SIZE], rfl⟩, ?_⟩
  exact ((c7_init_essiv_generator (fun _ => List.replicate 32 1) 3 0 0
    (List.replicate 16 2) 16
    (fun x => by simp [SHA256_DIGEST_SIZE])).2 rfl rfl).2.1

/-! ### Per-inode crypto info (`struct fscrypt_info`) and its lifecycle -/

/-- `struct fscrypt_info` (SDP fields omitted; the model treats
`CONFIG_FSCRYPT_SDP`'s classified-file delegation as out of scope).
`ci_raw_key` models the embedded `u8 ci_raw_key[FS_MAX_KEY_SIZE]` buffer
used by inline-encryption modes; handles are abstract `Nat` ids. -/
structure fscrypt_info where
  ci_flags : Nat
  ci_data_mode : Nat
  ci_filename_mode : Nat
  ci_master_key_descriptor : List Nat
  ci_nonce : List Nat
  ci_mode : Option fscrypt_mode
  ci_ctfm : Option Nat
  ci_essiv_tfm : Option Nat
  ci_master_key : Option fscrypt_master_key
  ci_raw_key : List Nat
deriving Repr, DecidableEq

/-- Outcome of `i_sb->s_cop->get_context`: an error, a short/odd read
(`res ≥ 0` but `res ≠ sizeof(ctx)`), or a full context record. -/
inductive get_context_result where
  | gc_err (e : Int)
  | gc_badsize (n : Nat)
  | gc_ok (ctx : fscrypt_context)
deriving Repr, DecidableEq

/-- All external collaborators of the lifecycle functions, bundled:
keyring service, secondary lookup prefix, crypto primitives, header
predicates, filesystem callbacks and allocator outcomes. -/
structure FsEnv where
  keyring : String → List Nat → key_lookup_result
  keyPfx2 : Option String
  ecb : List Nat → List Nat → List Nat
  sha : List Nat → List Nat
  valid_enc_modes : Nat → Nat → Bool
  ice_capable : Bool
  should_be_processed_by_ice : Bool
  dummy_context_enabled : Bool
  is_encrypted : Bool
  get_context : get_context_result
  inode_kind : InodeKind
  init_res : Int
  alloc_info_ok : Bool
  alloc_raw_ok : Bool
  alloc_skcipher : Except Int Nat
  alloc_essiv_cipher : Except Int Nat
  digest_res : Int
  essiv_setkey_res : Int
  fresh_mk_ctfm : Except Int Nat

/-- `fscrypt_data_encryption_mode`. -/
def fscrypt_data_encryption_mode (env : FsEnv) : Nat :=
  if env.should_be_processed_by_ice then FS_ENCRYPTION_MODE_PRIVATE
  else FS_ENCRYPTION_MODE_AES_256_XTS

/-- The faked-up context for an unencrypted directory under the test-only
dummy-context path (`memset 0`, then format/modes/descriptor filled in;
0x42 = 66). -/
def dummy_context (env : FsEnv) : fscrypt_context :=
  { format := FS_ENCRYPTION_CONTEXT_FORMAT_V1
    contents_encryption_mode := fscrypt_data_encryption_mode env
    filenames_encryption_mode := FS_ENCRYPTION_MODE_AES_256_CTS
    flags := 0
    master_key_descriptor := List.replicate FS_KEY_DESCRIPTOR_SIZE 66
    nonce := List.replicate FS_KEY_DERIVATION_NONCE_SIZE 0 }

/-- The context-acquisition prologue of `fscrypt_get_encryption_info`:
`get_context` errors fall back to the dummy context only for
dummy-enabled, unencrypted inodes; a size mismatch is `-EINVAL`. -/
def fscrypt_get_context_checked (env : FsEnv) : Except Int fscrypt_context :=
  match env.get_context with
  | .gc_err e =>
    if ¬ env.dummy_context_enabled ∨ env.is_encrypted then .error e
    else .ok (dummy_context env)
  | .gc_badsize _ => .error (-EINVAL)
  | .gc_ok c => .ok c

/-- What `put_crypt_info` released: whether a master-key cache reference
was dropped, which private cipher/ESSIV handles were freed, and the
(zeroed) contents of the embedded raw key buffer at free time. -/
structure released_info where
  ri_master_key_put : Bool
  ri_ctfm_freed : Option Nat
  ri_essiv_freed : Option Nat
  ri_raw_key_zeroed : List Nat
deriving Repr, DecidableEq

/-- `put_crypt_info`: safe on an absent info; a shared master-key
reference is dropped through `put_master_key` (the shared cipher handle is
not freed), otherwise the private cipher and ESSIV handles are freed; the
embedded raw key bytes are zeroed (`memset`) before the object is freed. -/
def put_crypt_info (ci : Option fscrypt_info)
    (table : List fscrypt_master_key) :
    List fscrypt_master_key × Option released_info :=
  match ci with
  | none => (table, none)
  | some c =>
    match c.ci_master_key with
    | some mk =>
      ((put_master_key mk table).1,
        some { ri_master_key_put := true
               ri_ctfm_freed := none
               ri_essiv_freed := none
               ri_raw_key_zeroed := c.ci_raw_key.map (fun _ => 0) })
    | none =>
      (table,
        some { ri_master_key_put := false
               ri_ctfm_freed := c.ci_ctfm
               ri_essiv_freed := c.ci_essiv_tfm
               ri_raw_key_zeroed := c.ci_raw_key.map (fun _ => 0) })

/-- The ESSIV tail of `setup_crypto_transform` (result code, updated info,
table). -/
def setup_essiv_stage (env : FsEnv) (ci : fscrypt_info)
    (mode : fscrypt_mode) (raw_key : List Nat)
    (table : List fscrypt_master_key) :
    Int × fscrypt_info × List fscrypt_master_key :=
  if mode.needs_essiv then
    let r := init_essiv_generator env.sha env.alloc_essiv_cipher
      env.digest_res env.essiv_setkey_res raw_key mode.keysize
    (r.essiv_err, { ci with ci_essiv_tfm := r.essiv_tfm }, table)
  else
    (0, ci, table)

/-- `setup_crypto_transform`: DIRECT_KEY policies go through the shared
master-key cache, others allocate a private keyed cipher
(`allocate_skcipher_for_mode`, outcome `env.alloc_skcipher`); modes that
need ESSIV then run `init_essiv_generator`.  Returns (error code, info as
mutated so far, table). -/
def setup_crypto_transform (env : FsEnv) (ci : fscrypt_info)
    (mode : fscrypt_mode) (raw_key : List Nat)
    (table : List fscrypt_master_key) :
    Int × fscrypt_info × List fscrypt_master_key :=
  if ci.ci_flags &&& FS_POLICY_FLAG_DIRECT_KEY ≠ 0 then
    match fscrypt_get_master_key ci.ci_master_key_descriptor mode raw_key
        env.fresh_mk_ctfm table with
    | (.error e, t2) => (e, ci, t2)
    | (.ok mk, t2) =>
      setup_essiv_stage env
        { ci with ci_master_key := some mk, ci_ctfm := some mk.mk_ctfm }
        mode raw_key t2
  else
    match env.alloc_skcipher with
    | .error e => (e, ci, table)
    | .ok hctfm =>
      setup_essiv_stage env
        { ci with ci_master_key := none, ci_ctfm := some hctfm }
        mode raw_key table

/-- Externally visible side effects of one `fscrypt_get_encryption_info`
call, in program order: crypt-info allocation, keyring lookup, AES-ECB
derivation, raw-key buffer allocation, transform setup, atomic install. -/
inductive ev where
  | ev_alloc_info
  | ev_alloc_raw
  | ev_key_lookup
  | ev_crypto_op
  | ev_setup_transform
  | ev_install
deriving Repr, DecidableEq

/-- The events `find_and_derive_key` itself contributes: at least one
keyring lookup, plus the AES-ECB derivation for the default path. -/
def find_and_derive_events (env : FsEnv) (ctx : fscrypt_context)
    (mode : fscrypt_mode) : List ev :=
  .ev_key_lookup ::
    (match find_master_key_payload env.keyring env.keyPfx2
        ctx.master_key_descriptor mode.keysize with
     | .error _ => []
     | .ok _ =>
       if ctx.flags &&& FS_POLICY_FLAG_DIRECT_KEY ≠ 0 then []
       else if mode.inline_encryption then []
       else [.ev_crypto_op])

/-- Result of one `fscrypt_get_encryption_info` call: return value, the
inode's `i_crypt_info` slot afterwards, the master-key table afterwards,
what `put_crypt_info` released on the way out, and the event trace. -/
structure get_info_result where
  gi_res : Int
  gi_info : Option fscrypt_info
  gi_table : List fscrypt_master_key
  gi_released : Option released_info
  gi_events : List ev
deriving Repr, DecidableEq

/-- The common `out:` epilogue: `-ENOKEY` collapses to success, the
not-installed info (if any) is released via `put_crypt_info`, and the
temporary raw-key buffer is zeroed and freed (`kzfree`). -/
def get_info_out (res : Int) (crypt_info : Option fscrypt_info)
    (table : List fscrypt_master_key) (installed : Option fscrypt_info)
    (events : List ev) : get_info_result :=
  let p := put_crypt_info crypt_info table
  { gi_res := if res = -ENOKEY then 0 else res
    gi_info := installed
    gi_table := p.1
    gi_released := p.2
    gi_events := events }

/-- `fscrypt_get_encryption_info`, sequential embedding (the
`CONFIG_FSCRYPT_SDP` classified-file block is not modelled; the paths the
claims exercise precede it or are independent of it).  The inode's state
is the `i_crypt_info` slot plus the shared master-key table. -/
def fscrypt_get_encryption_info (env : FsEnv)
    (i_crypt_info : Option fscrypt_info)
    (table : List fscrypt_master_key) : get_info_result :=
  if i_crypt_info.isSome then
    { gi_res := 0, gi_info := i_crypt_info, gi_table := table,
      gi_released := none, gi_events := [] }
  else if env.init_res ≠ 0 then
    { gi_res := env.init_res, gi_info := none, gi_table := table,
      gi_released := none, gi_events := [] }
  else
    match fscrypt_get_context_checked env with
    | .error e =>
      { gi_res := e, gi_info := none, gi_table := table,
        gi_released := none, gi_events := [] }
    | .ok ctx =>
      if ctx.format ≠ FS_ENCRYPTION_CONTEXT_FORMAT_V1 then
        { gi_res := -EINVAL, gi_info := none, gi_table := table,
          gi_released := none, gi_events := [] }
      else if ctx.flags &&& FS_POLICY_FLAGS_INVALID_MASK ≠ 0 then
        { gi_res := -EINVAL, gi_info := none, gi_table := table,
          gi_released := none, gi_events := [] }
      else if ¬ env.alloc_info_ok then
        { gi_res := -ENOMEM, gi_info := none, gi_table := table,
          gi_released := none, gi_events := [.ev_alloc_info] }
      else
        let ci0 : fscrypt_info :=
          { ci_flags := ctx.flags
            ci_data_mode := ctx.contents_encryption_mode
            ci_filename_mode := ctx.filenames_encryption_mode
            ci_master_key_descriptor := ctx.master_key_descriptor
            ci_nonce := ctx.nonce
            ci_mode := none
            ci_ctfm := none
            ci_essiv_tfm := none
            ci_master_key := none
            ci_raw_key := List.replicate FS_MAX_KEY_SIZE 0 }
        match (select_encryption_mode env.valid_enc_modes env.ice_capable
            ci0.ci_data_mode ci0.ci_filename_mode env.inode_kind).1 with
        | .error e => get_info_out e (some ci0) table none [.ev_alloc_info]
        | .ok mode =>
          let ci1 := { ci0 with ci_mode := some mode }
          if ¬ env.alloc_raw_ok then
            get_info_out (-ENOMEM) (some ci1) table none
              [.ev_alloc_info, .ev_alloc_raw]
          else
            let evs := .ev_alloc_info :: .ev_alloc_raw ::
              find_and_derive_events env ctx mode
            match find_and_derive_key env.keyring env.keyPfx2 env.ecb ctx
                mode with
            | .error e => get_info_out e (some ci1) table none evs
            | .ok raw_key =>
              if ¬ mode.inline_encryption then
                match setup_crypto_transform env ci1 mode raw_key table with
                | (e, ci2, t2) =>
                  if e ≠ 0 then
                    get_info_out e (some ci2) t2 none
                      (evs ++ [.ev_setup_transform])
                  else
                    get_info_out 0 none t2 (some ci2)
                      (evs ++ [.ev_setup_transform, .ev_install])
              else
                let ci2 := { ci1 with
                  ci_raw_key := mk_raw_store raw_key mode.keysize }
                get_info_out 0 none table (some ci2) (evs ++ [.ev_install])

/-- C8: a stored policy record (`get_context` succeeds) whose format
version is not the single supported value, or with any flag bit outside
the recognized mask, makes `fscrypt_get_encryption_info` return `-EINVAL`
with an empty event trace — no keyring lookup, no cryptographic
operation, no crypto-info allocation — installing nothing and leaving the
master-key table untouched. -/
theorem c8_invalid_policy_rejected_early (env : FsEnv)
    (table : List fscrypt_master_key) (ctx : fscrypt_context)
    (hinit : env.init_res = 0)
    (hctx : env.get_context = .gc_ok ctx)
    (hbad : ctx.format ≠ FS_ENCRYPTION_CONTEXT_FORMAT_V1 ∨
      ctx.flags &&& FS_POLICY_FLAGS_INVALID_MASK ≠ 0) :
    (fscrypt_get_encryption_info env none table).gi_res = -EINVAL ∧
    (fscrypt_get_encryption_info env none table).gi_events = [] ∧
    (fscrypt_get_encryption_info env none table).gi_info = none ∧
    (fscrypt_get_encryption_info env none table).gi_table = table := by
  have hc : fscrypt_get_context_checked env = .ok ctx := by
    simp [fscrypt_get_context_checked, hctx]
  rcases hbad with hb | hb
  · refine ⟨?_, ?_, ?_, ?_⟩ <;>
      simp [fscrypt_get_encryption_info, hinit, hc, hb]
  · by_cases hf : ctx.format = FS_ENCRYPTION_CONTEXT_FORMAT_V1
    · refine ⟨?_, ?_, ?_, ?_⟩ <;>
        simp [fscrypt_get_encryption_info, hinit, hc, hf, hb]
    · refine ⟨?_, ?_, ?_, ?_⟩ <;>
        simp [fscrypt_get_encryption_info, hinit, hc, hf]

/-- Witness for C8: a context with format byte 2 is rejected with
`-EINVAL` and no side effects. -/
theorem c8_invalid_policy_rejected_early_witness :
    (fscrypt_get_encryption_info
      { keyring := fun _ _ => .lk_err (-ENOKEY)
        keyPfx2 := none
        ecb := fun _ d => d
        sha := fun _ => List.replicate 32 0
        valid_enc_modes := fun dm fm => decide (dm = 1 ∧ fm = 4)
        ice_capable := true
        should_be_processed_by_ice := false
        dummy_context_enabled := false
        is_encrypted := true
        get_context := .gc_ok
          { format := 2, contents_encryption_mode := 1,
            filenames_encryption_mode := 4, flags := 0,
            master_key_descriptor := List.replicate 8 1,
            nonce := List.replicate 16 0 }
        inode_kind := .regular
        init_res := 0
        alloc_info_ok := true
        alloc_raw_ok := true
        alloc_skcipher := .ok 1
        alloc_essiv_cipher := .ok 2
        digest_res := 0
        essiv_setkey_res := 0
        fresh_mk_ctfm := .ok 3 } none []).gi_res = -EINVAL ∧
    (fscrypt_get_encryption_info
      { keyring := fun _ _ => .lk_err (-ENOKEY)
        keyPfx2 := none
        ecb := fun _ d => d
        sha := fun _ => List.replicate 32 0
        valid_enc_modes := fun dm fm => decide (dm = 1 ∧ fm = 4)
        ice_capable := true
        should_be_processed_by_ice := false
        dummy_context_enabled := false
        is_encrypted := true
        get_context := .gc_ok
          { format := 2, contents_encryption_mode := 1,
            filenames_encryption_mode := 4, flags := 0,
            master_key_descriptor := List.replicate 8 1,
            nonce := List.replicate 16 0 }
        inode_kind := .regular
        init_res := 0
        alloc_info_ok := true
        alloc_raw_ok := true
        alloc_skcipher := .ok 1
        alloc_essiv_cipher := .ok 2
        digest_res := 0
        essiv_setkey_res := 0
        fresh_mk_ctfm := .ok 3 } none []).gi_events = [] := by
  have h := c8_invalid_policy_rejected_early
    { keyring := fun _ _ => .lk_err (-ENOKEY)
      keyPfx2 := none
      ecb := fun _ d => d
      sha := fun _ => List.replicate 32 0
      valid_enc_modes := fun dm fm => decide (dm = 1 ∧ fm = 4)
      ice_capable := true
      should_be_processed_by_ice := false
      dummy_context_enabled := false
      is_encrypted := true
      get_context := .gc_ok
        { format := 2, contents_encryption_mode := 1,
          filenames_encryption_mode := 4, flags := 0,
          master_key_descriptor := List.replicate 8 1,
          nonce := List.replicate 16 0 }
      inode_kind := .regular
      init_res := 0
      alloc_info_ok := true
      alloc_raw_ok := true
      alloc_skcipher := .ok 1
      alloc_essiv_cipher := .ok 2
      digest_res := 0
      essiv_setkey_res := 0
      fresh_mk_ctfm := .ok 3 } []
    { format := 2, contents_encryption_mode := 1,
      filenames_encryption_mode := 4, flags := 0,
      master_key_descriptor := List.replicate 8 1,
      nonce := List.replicate 16 0 }
    rfl rfl (Or.inl (by decide))
  exact ⟨h.1, h.2.1⟩

/-- C2: for a well-formed policy whose wrapping-key lookup yields NoKey,
`fscrypt_get_encryption_info` returns 0 while installing nothing.
(a) A payload with wrong `datalen`, declared length outside
`[1, FS_MAX_KEY_SIZE]`, or declared length below the mode's key size, and
an absent key, all make `find_and_lock_process_key` return the identical
`-ENOKEY` — indistinguishable in the returned value.  (b) A failed lookup
propagates through `find_and_derive_key` unchanged.  (c) The overall call
then reports success (0) and installs no crypto info on the inode. -/
theorem c2_nokey_reports_success (env : FsEnv)
    (table : List fscrypt_master_key) (ctx : fscrypt_context)
    (mode : fscrypt_mode)
    (pfx : String) (descriptor : List Nat) (min_keysize datalen : Nat)
    (payload : fscrypt_key)
    (keyring2 : String → List Nat → key_lookup_result)
    (hinit : env.init_res = 0)
    (hctx : env.get_context = .gc_ok ctx)
    (hfmt : ctx.format = FS_ENCRYPTION_CONTEXT_FORMAT_V1)
    (hflags : ctx.flags &&& FS_POLICY_FLAGS_INVALID_MASK = 0)
    (halloc : env.alloc_info_ok = true)
    (hraw : env.alloc_raw_ok = true)
    (hsel : (select_encryption_mode env.valid_enc_modes env.ice_capable
        ctx.contents_encryption_mode ctx.filenames_encryption_mode
        env.inode_kind).1 = .ok mode)
    (hnokey : find_and_derive_key env.keyring env.keyPfx2 env.ecb ctx mode =
      .error (-ENOKEY)) :
    ((keyring2 pfx descriptor = .lk_found datalen payload →
       (datalen ≠ sizeof_fscrypt_key ∨ payload.fk_size < 1 ∨
        payload.fk_size > FS_MAX_KEY_SIZE ∨
        payload.fk_size < min_keysize) →
       find_and_lock_process_key keyring2 pfx descriptor min_keysize =
         .error (-ENOKEY)) ∧
     (keyring2 pfx descriptor = .lk_err (-ENOKEY) →
       find_and_lock_process_key keyring2 pfx descriptor min_keysize =
         .error (-ENOKEY))) ∧
    (∀ e : Int, find_master_key_payload env.keyring env.keyPfx2
        ctx.master_key_descriptor mode.keysize = .error e →
      find_and_derive_key env.keyring env.keyPfx2 env.ecb ctx mode =
        .error e) ∧
    ((fscrypt_get_encryption_info env none table).gi_res = 0 ∧
     (fscrypt_get_encryption_info env none table).gi_info = none) := by
  refine ⟨⟨?_, ?_⟩, ?_, ?_⟩
  · intro hk hbad
    rcases hbad with hb | hb | hb | hb
    · simp [find_and_lock_process_key, hk, hb]
    · by_cases h1 : datalen = sizeof_fscrypt_key <;>
        simp [find_and_lock_process_key, hk, h1, hb]
    · by_cases h1 : datalen = sizeof_fscrypt_key <;>
        by_cases h2 : payload.fk_size < 1 <;>
          simp [find_and_lock_process_key, hk, h1, h2, hb]
    · by_cases h1 : datalen = sizeof_fscrypt_key <;>
        by_cases h2 : payload.fk_size < 1 <;>
          by_cases h3 : payload.fk_size > FS_MAX_KEY_SIZE <;>
            simp [find_and_lock_process_key, hk, h1, h2, h3, hb]
  · intro hk
    simp [find_and_lock_process_key, hk]
  · intro e he
    simp [find_and_derive_key, he]
  · have hc : fscrypt_get_context_checked env = .ok ctx := by
      simp [fscrypt_get_context_checked, hctx]
    constructor <;>
      simp [fscrypt_get_encryption_info, hinit, hc, hfmt, hflags, halloc,
        hraw, hsel, hnokey, get_info_out, put_crypt_info]

/-- Witness for C2: a keyring with no key at all under a well-formed
(XTS, CTS) policy — resolution reports success and installs nothing. -/
theorem c2_nokey_reports_success_witness :
    ((fscrypt_get_encryption_info
      { keyring := fun _ _ => .lk_err (-ENOKEY)
        keyPfx2 := none
        ecb := fun _ d => d
        sha := fun _ => List.replicate 32 0
        valid_enc_modes := fun dm fm => decide (dm = 1 ∧ fm = 4)
        ice_capable := true
        should_be_processed_by_ice := false
        dummy_context_enabled := false
        is_encrypted := true
        get_context := .gc_ok
          { format := 1, contents_encryption_mode := 1,
            filenames_encryption_mode := 4, flags := 0,
            master_key_descriptor := List.replicate 8 1,
            nonce := List.replicate 16 0 }
        inode_kind := .regular
        init_res := 0
        alloc_info_ok := true
        alloc_raw_ok := true
        alloc_skcipher := .ok 1
        alloc_essiv_cipher := .ok 2
        digest_res := 0
        essiv_setkey_res := 0
        fresh_mk_ctfm := .ok 3 } none []).gi_res = 0 ∧
     (fscrypt_get_encryption_info
      { keyring := fun _ _ => .lk_err (-ENOKEY)
        keyPfx2 := none
        ecb := fun _ d => d
        sha := fun _ => List.replicate 32 0
        valid_enc_modes := fun dm fm => decide (dm = 1 ∧ fm = 4)
        ice_capable := true
        should_be_processed_by_ice := false
        dummy_context_enabled := false
        is_encrypted := true
        get_context := .gc_ok
          { format := 1, contents_encryption_mode := 1,
            filenames_encryption_mode := 4, flags := 0,
            master_key_descriptor := List.replicate 8 1,
            nonce := List.replicate 16 0 }
        inode_kind := .regular
        init_res := 0
        alloc_info_ok := true
        alloc_raw_ok := true
        alloc_skcipher := .ok 1
        alloc_essiv_cipher := .ok 2
        digest_res := 0
        essiv_setkey_res := 0
        fresh_mk_ctfm := .ok 3 } none []).gi_info = none) := by
  have h := c2_nokey_reports_success
    { keyring := fun _ _ => .lk_err (-ENOKEY)
      keyPfx2 := none
      ecb := fun _ d => d
      sha := fun _ => List.replicate 32 0
      valid_enc_modes := fun dm fm => decide (dm = 1 ∧ fm = 4)
      ice_capable := true
      should_be_processed_by_ice := false
      dummy_context_enabled := false
      is_encrypted := true
      get_context := .gc_ok
        { format := 1, contents_encryption_mode := 1,
          filenames_encryption_mode := 4, flags := 0,
          master_key_descriptor := List.replicate 8 1,
          nonce := List.replicate 16 0 }
      inode_kind := .regular
      init_res := 0
      alloc_info_ok := true
      alloc_raw_ok := true
      alloc_skcipher := .ok 1
      alloc_essiv_cipher := .ok 2
      digest_res := 0
      essiv_setkey_res := 0
      fresh_mk_ctfm := .ok 3 } []
    { format := 1, contents_encryption_mode := 1,
      filenames_encryption_mode := 4, flags := 0,
      master_key_descriptor := List.replicate 8 1,
      nonce := List.replicate 16 0 }
    mode_AES_256_XTS "fscrypt:" (List.replicate 8 1) 64 72
    { fk_size := 0, fk_raw := [] }
    (fun _ _ => .lk_err (-ENOKEY))
    rfl rfl rfl (by decide) rfl rfl rfl rfl
  exact h.2.2

/-! ### Concurrent first-access install race

`cmpxchg_release(&inode->i_crypt_info, NULL, crypt_info)` is atomic, so a
run of N racing constructors linearizes into a sequence of compare-and-
install steps on the initially absent slot; the list below is that
linearization order.  Each constructor arrives with a fully constructed
info object; a loser releases its object through `put_crypt_info`. -/

/-- One atomic compare-and-install: returns the new slot value and the
loser's object (the caller's, when the slot was already occupied). -/
def try_install (slot : Option fscrypt_info) (ci : fscrypt_info) :
    Option fscrypt_info × Option fscrypt_info :=
  match slot with
  | none => (some ci, none)
  | some w => (some w, some ci)

/-- Run the linearized install steps of all racing constructors; returns
the final slot value and the losers in order. -/
def install_race (slot : Option fscrypt_info) :
    List fscrypt_info → Option fscrypt_info × List fscrypt_info
  | [] => (slot, [])
  | ci :: rest =>
    let s := try_install slot ci
    let r := install_race s.1 rest
    (r.1,
      match s.2 with
      | some l => l :: r.2
      | none => r.2)

theorem install_race_won (w : fscrypt_info) :
    ∀ l : List fscrypt_info, install_race (some w) l = (some w, l) := by
  intro l
  induction l with
  | nil => rfl
  | cons x rest ih => simp [install_race, try_install, ih]

/-- C9: when N constructors race on an initially absent slot, exactly the
first install succeeds — at every intermediate point the slot holds either
nothing or that same fully constructed winner, never anything partial —
and every losing constructor's object is fully released by
`put_crypt_info`: its embedded raw key bytes are zeroed, and either its
master-key cache reference is dropped (shared case) or its private cipher
and ESSIV handles are freed (owned case, table untouched). -/
theorem c9_install_race_exactly_once (c : fscrypt_info)
    (rest : List fscrypt_info) (table : List fscrypt_master_key) :
    (install_race none (c :: rest)).1 = some c ∧
    (install_race none (c :: rest)).2 = rest ∧
    (∀ k : Nat, (install_race none ((c :: rest).take k)).1 =
      if k = 0 then none else some c) ∧
    (∀ l ∈ (install_race none (c :: rest)).2,
      ∃ rel, (put_crypt_info (some l) table).2 = some rel ∧
        rel.ri_raw_key_zeroed = List.replicate l.ci_raw_key.length 0 ∧
        (l.ci_master_key = none →
          rel.ri_ctfm_freed = l.ci_ctfm ∧
          rel.ri_essiv_freed = l.ci_essiv_tfm ∧
          (put_crypt_info (some l) table).1 = table) ∧
        (∀ mk, l.ci_master_key = some mk →
          rel.ri_master_key_put = true ∧
          (put_crypt_info (some l) table).1 =
            (put_master_key mk table).1)) := by
  refine ⟨?_, ?_, ?_, ?_⟩
  · simp [install_race, try_install, install_race_won]
  · simp [install_race, try_install, install_race_won]
  · intro k
    match k with
    | 0 => rfl
    | Nat.succ k2 =>
      simp [install_race, try_install, install_race_won]
  · intro l _
    rcases hmk : l.ci_master_key with _ | mk
    · refine ⟨{ ri_master_key_put := false
                ri_ctfm_freed := l.ci_ctfm
                ri_essiv_freed := l.ci_essiv_tfm
                ri_raw_key_zeroed := l.ci_raw_key.map (fun _ => 0) },
        ?_, map_zero_eq_replicate l.ci_raw_key, ?_, ?_⟩
      · simp [put_crypt_info, hmk]
      · intro _
        exact ⟨rfl, rfl, by simp [put_crypt_info, hmk]⟩
      · intro mk2 hmk2
        cases hmk2
    · refine ⟨{ ri_master_key_put := true
                ri_ctfm_freed := none
                ri_essiv_freed := none
                ri_raw_key_zeroed := l.ci_raw_key.map (fun _ => 0) },
        ?_, map_zero_eq_replicate l.ci_raw_key, ?_, ?_⟩
      · simp [put_crypt_info, hmk]
      · intro hnone
        cases hnone
      · intro mk2 hmk2
        injection hmk2 with he
        subst he
        exact ⟨rfl, by simp [put_crypt_info, hmk]⟩

/-! ### Raw-key export (`fscrypt_get_encryption_key`, SDP build) -/

/-- Events of one `fscrypt_get_encryption_key` call: a *successful*
allocation of the temporary raw-key buffer, the keyring lookup, and the
zeroizing free (`kzfree`) of that buffer — `kzfree(NULL)` on the paths
that never allocated is a no-op and emits nothing. -/
inductive gk_ev where
  | gk_alloc_raw
  | gk_key_lookup
  | gk_kzfree_raw
deriving Repr, DecidableEq

/-- Result of `fscrypt_get_encryption_key`: return value, the exported
`key->raw` bytes and `key->size` (when written), and the event trace. -/
structure get_key_result where
  gk_res : Int
  gk_key_raw : Option (List Nat)
  gk_key_size : Option Nat
  gk_events : List gk_ev
deriving Repr, DecidableEq

/-- Body of `fscrypt_get_encryption_key` after mode selection: the
`FS_MAX_KEY_SIZE < mode->keysize` guard returns `-EPERM` directly (before
any buffer exists), then the buffer is allocated, the per-file key derived
via `find_and_derive_key`, copied out with its size, and the buffer
`kzfree`d at `out:` on every path that reached it. -/
def fscrypt_get_encryption_key_with_mode (env : FsEnv)
    (ctx : fscrypt_context) (mode : fscrypt_mode) : get_key_result :=
  if FS_MAX_KEY_SIZE < mode.keysize then
    { gk_res := -EPERM, gk_key_raw := none, gk_key_size := none,
      gk_events := [] }
  else if ¬ env.alloc_raw_ok then
    { gk_res := -ENOMEM, gk_key_raw := none, gk_key_size := none,
      gk_events := [] }
  else
    match find_and_derive_key env.keyring env.keyPfx2 env.ecb ctx mode with
    | .error e =>
      { gk_res := e, gk_key_raw := none, gk_key_size := none,
        gk_events := [.gk_alloc_raw, .gk_key_lookup, .gk_kzfree_raw] }
    | .ok raw =>
      { gk_res := 0, gk_key_raw := some (raw.take mode.keysize),
        gk_key_size := some mode.keysize,
        gk_events := [.gk_alloc_raw, .gk_key_lookup, .gk_kzfree_raw] }

/-- `fscrypt_get_encryption_key`: requires installed crypto info
(`fscrypt_has_encryption_key`), re-reads and re-validates the context,
re-selects the mode from the installed info, then runs the export body. -/
def fscrypt_get_encryption_key (env : FsEnv)
    (i_crypt_info : Option fscrypt_info) : get_key_result :=
  match i_crypt_info with
  | none =>
    { gk_res := -EINVAL, gk_key_raw := none, gk_key_size := none,
      gk_events := [] }
  | some ci =>
    match env.get_context with
    | .gc_err e =>
      { gk_res := e, gk_key_raw := none, gk_key_size := none,
        gk_events := [] }
    | .gc_badsize _ =>
      { gk_res := -EINVAL, gk_key_raw := none, gk_key_size := none,
        gk_events := [] }
    | .gc_ok ctx =>
      if ctx.format ≠ FS_ENCRYPTION_CONTEXT_FORMAT_V1 then
        { gk_res := -EINVAL, gk_key_raw := none, gk_key_size := none,
          gk_events := [] }
      else if ctx.flags &&& FS_POLICY_FLAGS_INVALID_MASK ≠ 0 then
        { gk_res := -EINVAL, gk_key_raw := none, gk_key_size := none,
          gk_events := [] }
      else
        match (select_encryption_mode env.valid_enc_modes env.ice_capable
            ci.ci_data_mode ci.ci_filename_mode env.inode_kind).1 with
        | .error e =>
          { gk_res := e, gk_key_raw := none, gk_key_size := none,
            gk_events := [] }
        | .ok mode => fscrypt_get_encryption_key_with_mode env ctx mode

/-- C10: the raw-key export returns `-EINVAL` with no installed crypto
info; its body returns `-EPERM` when the selected mode's key size exceeds
`FS_MAX_KEY_SIZE`; on success it sets `key->size` to exactly
`mode.keysize` and fills `key->raw` with the per-file key
`find_and_derive_key` produced; and every path that allocated the
temporary key buffer ends in its zeroizing free. -/
theorem c10_get_encryption_key (env : FsEnv) (ctx : fscrypt_context)
    (ci : fscrypt_info) (mode mode2 : fscrypt_mode) (raw : List Nat)
    (hctx : env.get_context = .gc_ok ctx)
    (hfmt : ctx.format = FS_ENCRYPTION_CONTEXT_FORMAT_V1)
    (hflags : ctx.flags &&& FS_POLICY_FLAGS_INVALID_MASK = 0)
    (hsel : (select_encryption_mode env.valid_enc_modes env.ice_capable
        ci.ci_data_mode ci.ci_filename_mode env.inode_kind).1 = .ok mode)
    (hks : mode.keysize ≤ FS_MAX_KEY_SIZE)
    (halloc : env.alloc_raw_ok = true)
    (hround : find_and_derive_key env.keyring env.keyPfx2 env.ecb ctx
      mode = .ok raw)
    (hbig : FS_MAX_KEY_SIZE < mode2.keysize) :
    (fscrypt_get_encryption_key env none).gk_res = -EINVAL ∧
    (fscrypt_get_encryption_key env none).gk_key_raw = none ∧
    (fscrypt_get_encryption_key_with_mode env ctx mode2).gk_res = -EPERM ∧
    (fscrypt_get_encryption_key_with_mode env ctx mode2).gk_key_raw =
      none ∧
    (fscrypt_get_encryption_key env (some ci)).gk_res = 0 ∧
    (fscrypt_get_encryption_key env (some ci)).gk_key_size =
      some mode.keysize ∧
    (fscrypt_get_encryption_key env (some ci)).gk_key_raw =
      some (raw.take mode.keysize) ∧
    (∀ ctx2 mode3,
      gk_ev.gk_alloc_raw ∈
        (fscrypt_get_encryption_key_with_mode env ctx2 mode3).gk_events →
      gk_ev.gk_kzfree_raw ∈
        (fscrypt_get_encryption_key_with_mode env ctx2 mode3).gk_events) := by
  refine ⟨rfl, rfl, ?_, ?_, ?_, ?_, ?_, ?_⟩
  · simp [fscrypt_get_encryption_key_with_mode, hbig]
  · simp [fscrypt_get_encryption_key_with_mode, hbig]
  · simp [fscrypt_get_encryption_key, hctx, hfmt, hflags, hsel,
      fscrypt_get_encryption_key_with_mode, Nat.not_lt.mpr hks, halloc,
      hround]
  · simp [fscrypt_get_encryption_key, hctx, hfmt, hflags, hsel,
      fscrypt_get_encryption_key_with_mode, Nat.not_lt.mpr hks, halloc,
      hround]
  · simp [fscrypt_get_encryption_key, hctx, hfmt, hflags, hsel,
      fscrypt_get_encryption_key_with_mode, Nat.not_lt.mpr hks, halloc,
      hround]
  · intro ctx2 mode3 hmem
    by_cases h1 : FS_MAX_KEY_SIZE < mode3.keysize
    · simp [fscrypt_get_encryption_key_with_mode, h1] at hmem
    · by_cases h2 : env.alloc_raw_ok
      · rcases hfd : find_and_derive_key env.keyring env.keyPfx2 env.ecb
            ctx2 mode3 with e | r <;>
          simp [fscrypt_get_encryption_key_with_mode, h1, h2, hfd]
      · simp [fscrypt_get_encryption_key_with_mode, h1, h2] at hmem

/-- Witness for C10: a 72-byte well-formed keyring payload under the
(XTS, CTS) policy; the export succeeds with a 64-byte key, and an
artificial 65-byte-key mode trips the `-EPERM` guard. -/
theorem c10_get_encryption_key_witness :
    (fscrypt_get_encryption_key
      { keyring := fun _ _ => .lk_found 72
          { fk_size := 64, fk_raw := List.replicate 64 9 }
        keyPfx2 := none
        ecb := fun _ d => d
        sha := fun _ => List.replicate 32 0
        valid_enc_modes := fun dm fm => decide (dm = 1 ∧ fm = 4)
        ice_capable := true
        should_be_processed_by_ice := false
        dummy_context_enabled := false
        is_encrypted := true
        get_context := .gc_ok
          { format := 1, contents_encryption_mode := 1,
            filenames_encryption_mode := 4, flags := 0,
            master_key_descriptor := List.replicate 8 1,
            nonce := List.replicate 16 0 }
        inode_kind := .regular
        init_res := 0
        alloc_info_ok := true
        alloc_raw_ok := true
        alloc_skcipher := .ok 1
        alloc_essiv_cipher := .ok 2
        digest_res := 0
        essiv_setkey_res := 0
        fresh_mk_ctfm := .ok 3 }
      (some
        { ci_flags := 0
          ci_data_mode := 1
          ci_filename_mode := 4
          ci_master_key_descriptor := List.replicate 8 1
          ci_nonce := List.replicate 16 0
          ci_mode := some mode_AES_256_XTS
          ci_ctfm := some 1
          ci_essiv_tfm := none
          ci_master_key := none
          ci_raw_key := List.replicate 64 0 })).gk_key_size = some 64 ∧
    (fscrypt_get_encryption_key_with_mode
      { keyring := fun _ _ => .lk_found 72
          { fk_size := 64, fk_raw := List.replicate 64 9 }
        keyPfx2 := none
        ecb := fun _ d => d
        sha := fun _ => List.replicate 32 0
        valid_enc_modes := fun dm fm => decide (dm = 1 ∧ fm = 4)
        ice_capable := true
        should_be_processed_by_ice := false
        dummy_context_enabled := false
        is_encrypted := true
        get_context := .gc_ok
          { format := 1, contents_encryption_mode := 1,
            filenames_encryption_mode := 4, flags := 0,
            master_key_descriptor := List.replicate 8 1,
            nonce := List.replicate 16 0 }
        inode_kind := .regular
        init_res := 0
        alloc_info_ok := true
        alloc_raw_ok := true
        alloc_skcipher := .ok 1
        alloc_essiv_cipher := .ok 2
        digest_res := 0
        essiv_setkey_res := 0
        fresh_mk_ctfm := .ok 3 }
      { format := 1, contents_encryption_mode := 1,
        filenames_encryption_mode := 4, flags := 0,
        master_key_descriptor := List.replicate 8 1,
        nonce := List.replicate 16 0 }
      { friendly_name := "toolong"
        cipher_str := "xts(aes)"
        keysize := 65
        ivsize := 16
        needs_essiv := false
        inline_encryption := false }).gk_res = -EPERM := by
  have h := c10_get_encryption_key
    { keyring := fun _ _ => .lk_found 72
        { fk_size := 64, fk_raw := List.replicate 64 9 }
      keyPfx2 := none
      ecb := fun _ d => d
      sha := fun _ => List.replicate 32 0
      valid_enc_modes := fun dm fm => decide (dm = 1 ∧ fm = 4)
      ice_capable := true
      should_be_processed_by_ice := false
      dummy_context_enabled := false
      is_encrypted := true
      get_context := .gc_ok
        { format := 1, contents_encryption_mode := 1,
          filenames_encryption_mode := 4, flags := 0,
          master_key_descriptor := List.replicate 8 1,
          nonce := List.replicate 16 0 }
      inode_kind := .regular
      init_res := 0
      alloc_info_ok := true
      alloc_raw_ok := true
      alloc_skcipher := .ok 1
      alloc_essiv_cipher := .ok 2
      digest_res := 0
      essiv_setkey_res := 0
      fresh_mk_ctfm := .ok 3 }
    { format := 1, contents_encryption_mode := 1,
      filenames_encryption_mode := 4, flags := 0,
      master_key_descriptor := List.replicate 8 1,
      nonce := List.replicate 16 0 }
    { ci_flags := 0
      ci_data_mode := 1
      ci_filename_mode := 4
      ci_master_key_descriptor := List.replicate 8 1
      ci_nonce := List.replicate 16 0
      ci_mode := some mode_AES_256_XTS
      ci_ctfm := some 1
      ci_essiv_tfm := none
      ci_master_key := none
      ci_raw_key := List.replicate 64 0 }
    mode_AES_256_XTS
    { friendly_name := "toolong"
      cipher_str := "xts(aes)"
      keysize := 65
      ivsize := 16
      needs_essiv := false
      inline_encryption := false }
    (List.replicate 64 9)
    rfl rfl (by decide) rfl (by decide) rfl rfl (by decide)
  exact ⟨h.2.2.2.2.2.1, h.2.2.1⟩

end Fscrypt
